import Mathlib

/-!
Shallow embedding of the user-registration endpoint of the k-hostel
repository (Supabase variant, `src/unnamed/part_000`; the Drizzle variant
`src/app/api/auth/register/route.ts` shares the same catch block and
response shapes).  The handler is modelled as a pure function of the
process environment and of an oracle fixing the behaviour of the external
collaborators (body parse, database lookup/insert/update, email helper,
bcrypt salt, `Math.random()`, clock).  Alongside the response we return the
ordered trace of observable operations, so that "no side effect happened"
claims are statements about the trace.
-/

namespace KHostel

/-- JavaScript runtime values as far as the catch block inspects them:
`null` and `undefined` (property access on them throws), plain strings and
other primitives (property access yields `undefined`), and error-like
objects carrying `name`, `message` and, for Zod errors, `issues`. -/
inductive JsVal where
  | nullv
  | undef
  | str (s : String)
  | prim
  | errObj (name : Option String) (message : Option String) (issues : List String)
deriving DecidableEq, Repr

/-- Validated registration payload, the output of the schema validator. -/
structure ValidatedData where
  email : String
  password : String
  firstName : String
  lastName : Option String
  phone : Option String
  role : String
  schoolId : Option String
  businessRegNumber : Option String
  address : Option String
  profileImageUrl : Option String
  termsAccepted : Bool
deriving DecidableEq, Repr

/-- Raw JSON body: each field may be absent. -/
structure RawBody where
  email : Option String
  password : Option String
  firstName : Option String
  lastName : Option String
  phone : Option String
  role : Option String
  schoolId : Option String
  businessRegNumber : Option String
  address : Option String
  profileImageUrl : Option String
  termsAccepted : Option Bool
deriving DecidableEq, Repr

/-- Modelled from the spec: `registerUserSchema` lives in `@/lib/schema`,
which is not among the provided sources.  Per spec §3 the required fields of
RegistrationRequest are email, password, firstName, role and termsAccepted.
Zod collects one field-level issue per violated field. -/
def missingIssues (b : RawBody) : List String :=
  (if b.email.isNone then ["email: Required"] else []) ++
  (if b.password.isNone then ["password: Required"] else []) ++
  (if b.firstName.isNone then ["firstName: Required"] else []) ++
  (if b.role.isNone then ["role: Required"] else []) ++
  (if b.termsAccepted.isNone then ["termsAccepted: Required"] else [])

/-- Modelled from the spec: `registerUserSchema.parse` (route line 34).  The
schema validator returns the validated data, or the list of field-level
issues when a required field is missing. -/
def schemaParse (b : RawBody) : Except (List String) ValidatedData :=
  if h : b.email.isSome ∧ b.password.isSome ∧ b.firstName.isSome ∧
      b.role.isSome ∧ b.termsAccepted.isSome then
    .ok { email := b.email.get h.1, password := b.password.get h.2.1,
          firstName := b.firstName.get h.2.2.1, lastName := b.lastName,
          phone := b.phone, role := b.role.get h.2.2.2.1, schoolId := b.schoolId,
          businessRegNumber := b.businessRegNumber, address := b.address,
          profileImageUrl := b.profileImageUrl,
          termsAccepted := b.termsAccepted.get h.2.2.2.2 }
  else .error (missingIssues b)

/-- Hex digit for the bcrypt digest model. -/
def hexDigitChar (n : Nat) : Char := Nat.digitChar (n % 16)

/-- Two hex characters per input character. -/
def hexChunk (c : Char) : List Char := [hexDigitChar (c.toNat / 16), hexDigitChar c.toNat]

/-- Hex encoding of a character list. -/
def hexOfChars : List Char → List Char
  | [] => []
  | c :: t => hexChunk c ++ hexOfChars t

/-- Modelled from the spec: bcryptjs's `hash` (spec §1 lists the
password-hashing primitive as an external trusted collaborator; the source
only calls `bcrypt.hash(password, 12)` at route line 56).  A bcrypt hash is
a modular-crypt string: the marker "$2a$12$" followed by the encoded salt
and digest.  The digest is modelled as a hex encoding of the password; the
model keeps the properties the spec relies on: the output is a function of
salt and password, carries the "$2a$12$" marker, and never equals the
plaintext. -/
def bcryptHash (salt pw : String) : String :=
  "$2a$12$" ++ salt ++ String.mk (hexOfChars pw.toList)

/-- Whether `needle` occurs at the head of `hay`. -/
def matchAt : List Char → List Char → Bool
  | _, [] => true
  | [], _ :: _ => false
  | h :: ht, n :: nt => h == n && matchAt ht nt

/-- JavaScript `String.prototype.includes` on character lists. -/
def containsSub : List Char → List Char → Bool
  | _, [] => true
  | [], _ :: _ => false
  | h :: t, n :: nt => matchAt (h :: t) (n :: nt) || containsSub t (n :: nt)

/-- JavaScript `hay.includes(needle)`. -/
def strIncludes (hay needle : String) : Bool :=
  containsSub hay.toList needle.toList

/-- JavaScript `error.message?.includes(s)`: an absent message is falsy. -/
def optIncludes (msg : Option String) (needle : String) : Bool :=
  match msg with
  | some m => strIncludes m needle
  | none => false

/-- Row sent to `db.users.create` (route lines 61–76).  Timestamps are
modelled as epoch milliseconds. -/
structure InsertValues where
  email : String
  password_hash : String
  first_name : String
  last_name : Option String
  phone : Option String
  role : String
  school_id : Option String
  business_reg_number : Option String
  address : Option String
  profile_image_url : Option String
  terms_accepted : Bool
  terms_accepted_at : Nat
  verified_status : Bool
  email_verified : Bool
deriving DecidableEq, Repr

/-- Persisted user row: the inserted values plus the id the store assigns. -/
structure UserRecord extends InsertValues where
  id : Nat
deriving DecidableEq, Repr

/-- Shape of `userWithoutPassword` (route line 115): every field of the user
row except `password_hash`, which the type itself cannot carry. -/
structure SanitizedUser where
  id : Nat
  email : String
  first_name : String
  last_name : Option String
  phone : Option String
  role : String
  school_id : Option String
  business_reg_number : Option String
  address : Option String
  profile_image_url : Option String
  terms_accepted : Bool
  terms_accepted_at : Nat
  verified_status : Bool
  email_verified : Bool
deriving DecidableEq, Repr

/-- Rest destructuring `const { password_hash: _, ...userWithoutPassword } = newUser`. -/
def sanitize (u : UserRecord) : SanitizedUser :=
  { id := u.id, email := u.email, first_name := u.first_name, last_name := u.last_name,
    phone := u.phone, role := u.role, school_id := u.school_id,
    business_reg_number := u.business_reg_number, address := u.address,
    profile_image_url := u.profile_image_url, terms_accepted := u.terms_accepted,
    terms_accepted_at := u.terms_accepted_at, verified_status := u.verified_status,
    email_verified := u.email_verified }

/-- Structured JSON response of the handler.  `none` in an optional field
means the key is absent from the JSON (JavaScript `undefined` is dropped by
the serializer). -/
structure Response where
  status : Nat
  success : Bool
  message : Option String
  user : Option SanitizedUser
  details : Option (List String)
  errorField : Option String
deriving DecidableEq, Repr

/-- JavaScript `x || null` on an optional string: absent or empty becomes null. -/
def jsOrNull : Option String → Option String
  | some s => if s == "" then none else some s
  | none => none

/-- Process environment; `none` models an unset variable. -/
structure Env where
  supabaseUrl : Option String
  supabaseAnonKey : Option String
  nodeEnv : Option String
deriving DecidableEq, Repr

/-- Truthiness test `!process.env.X`: unset or empty string. -/
def envFalsy : Option String → Bool
  | none => true
  | some s => s == ""

/-- Behaviour of the external collaborators during one request: the JSON
body parse, `db.users.findByEmail`, `db.users.create` (on success the store
assigns an id and returns the inserted row), the error slot returned by the
Supabase `update`, the email helper's result, bcrypt's random salt,
`Math.random()`, and the two clock reads (insert time and code issuance). -/
structure Oracle where
  bodyResult : Except JsVal RawBody
  findResult : Except JsVal (Option UserRecord)
  createResult : Except JsVal Nat
  updateError : Option JsVal
  emailSuccess : Bool
  salt : String
  rand : ℚ
  nowInsert : Nat
  now : Nat

/-- Observable operations performed by the handler, in order. -/
inductive Op where
  | parseBody
  | findByEmail (email : String)
  | hashPassword (password : String)
  | insert (v : InsertValues)
  | updateVerification (id : Nat) (code : String) (expires : Nat)
  | sendEmail (recipient : String) (subject : String)
deriving DecidableEq, Repr

/-- Decimal digits of `n`, least significant first, with explicit fuel so
the definition is structurally recursive (`fuel ≥ n` suffices). -/
def decDigits : Nat → Nat → List Nat
  | 0, _ => []
  | _ + 1, 0 => []
  | fuel + 1, n + 1 => ((n + 1) % 10) :: decDigits fuel ((n + 1) / 10)

/-- JavaScript `Number.prototype.toString` on a natural number. -/
def jsNatToString (n : Nat) : String :=
  if n = 0 then "0" else String.mk (((decDigits n n).map Nat.digitChar).reverse)

/-- Route line 81: `Math.floor(100000 + Math.random() * 900000)`.  The
random draw `q` models `Math.random()`, so the intended domain is
`0 ≤ q < 1`; `Rat.floor` is used so the definition evaluates. -/
def genCodeNat (q : ℚ) : Nat := (Rat.floor ((100000 : ℚ) + q * 900000)).toNat

/-- Route line 81 with `.toString()`. -/
def genCode (q : ℚ) : String := jsNatToString (genCodeNat q)

/-- Simple JSON response carrying only a status, success flag and message. -/
def jsonResp (status : Nat) (success : Bool) (message : Option String) : Response :=
  { status := status, success := success, message := message,
    user := none, details := none, errorField := none }

/-- Final catch-all 500 (route lines 168–175): the underlying message is
exposed only when NODE_ENV is exactly "development"; an `undefined` error
value disappears from the JSON. -/
def genericResp (env : Env) (msg : Option String) : Response :=
  { status := 500, success := false, message := some "Internal server error",
    user := none, details := none,
    errorField := if env.nodeEnv = some "development" then msg else none }

/-- Catch block, route lines 125–175.  The property access `error.name` on a
thrown `null` or `undefined` itself throws a TypeError which nothing
catches, so those two cases escape the handler. -/
def classify (env : Env) (e : JsVal) : Except JsVal Response :=
  match e with
  | .nullv => .error (.errObj (some "TypeError")
      (some "Cannot read properties of null (reading 'name')") [])
  | .undef => .error (.errObj (some "TypeError")
      (some "Cannot read properties of undefined (reading 'name')") [])
  | .str _ => .ok (genericResp env none)
  | .prim => .ok (genericResp env none)
  | .errObj name msg issues =>
    if name = some "ZodError" then
      .ok { status := 400, success := false, message := some "Invalid input data",
            user := none, details := some issues, errorField := none }
    else if optIncludes msg "connect" || optIncludes msg "ENOTFOUND" then
      .ok (jsonResp 500 false
        (some "Database connection failed. Please check your DATABASE_URL."))
    else if optIncludes msg "duplicate key" || optIncludes msg "unique constraint" then
      .ok (jsonResp 400 false (some "Email already exists"))
    else if optIncludes msg "relation" && optIncludes msg "does not exist" then
      .ok (jsonResp 500 false
        (some "Database tables not found. Please run the SQL schema in Supabase first."))
    else
      .ok (genericResp env msg)

/-- Response at route lines 45–48 when the email is taken. -/
def conflictResp : Response :=
  jsonResp 400 false (some "User with this email already exists")

/-- Success message, route line 117. -/
def successMsg : String :=
  "Registration successful! Please check your email to verify your account before signing in."

/-- Values row built at route lines 61–76. -/
def mkInsertValues (vd : ValidatedData) (passwordHash : String) (nowInsert : Nat) :
    InsertValues :=
  { email := vd.email, password_hash := passwordHash, first_name := vd.firstName,
    last_name := jsOrNull vd.lastName, phone := jsOrNull vd.phone, role := vd.role,
    school_id := jsOrNull vd.schoolId, business_reg_number := jsOrNull vd.businessRegNumber,
    address := jsOrNull vd.address, profile_image_url := jsOrNull vd.profileImageUrl,
    terms_accepted := vd.termsAccepted, terms_accepted_at := nowInsert,
    verified_status := if vd.role = "agent" then false else true,
    email_verified := false }

/-- Body of the `try` block (route lines 11–123): either a response or the
thrown value, together with the ordered trace of operations performed.  A
schema-validation failure throws a ZodError; the verification-code update
and the email send are attempted on every execution that reaches them, and
their failures (`o.updateError`, `o.emailSuccess`) are only logged. -/
def tryBody (env : Env) (o : Oracle) : Except JsVal Response × List Op :=
  if envFalsy env.supabaseUrl then
    (.ok (jsonResp 500 false (some "Supabase configuration missing")), [])
  else if envFalsy env.supabaseAnonKey then
    (.ok (jsonResp 500 false (some "Supabase anon key missing")), [])
  else
    match o.bodyResult with
    | .error e => (.error e, [.parseBody])
    | .ok body =>
      match schemaParse body with
      | .error issues =>
          (.error (.errObj (some "ZodError") (some "invalid input") issues), [.parseBody])
      | .ok vd =>
        match o.findResult with
        | .error e => (.error e, [.parseBody, .findByEmail vd.email])
        | .ok (some _) => (.ok conflictResp, [.parseBody, .findByEmail vd.email])
        | .ok none =>
          let passwordHash := bcryptHash o.salt vd.password
          let values := mkInsertValues vd passwordHash o.nowInsert
          match o.createResult with
          | .error e =>
              (.error e,
               [.parseBody, .findByEmail vd.email, .hashPassword vd.password,
                .insert values])
          | .ok uid =>
            let newUser : UserRecord := ⟨values, uid⟩
            let code := genCode o.rand
            let expiresAt := o.now + 15 * 60 * 1000
            (.ok { status := 201, success := true, message := some successMsg,
                   user := some (sanitize newUser), details := none, errorField := none },
             [.parseBody, .findByEmail vd.email, .hashPassword vd.password,
              .insert values, .updateVerification uid code expiresAt,
              .sendEmail vd.email "Verify Your k-H Account"])

/-- Whole handler `POST` (route lines 7–177): run the try body; a thrown
value goes through the catch block, whose result may itself escape. -/
def POST (env : Env) (o : Oracle) : Except JsVal Response × List Op :=
  match tryBody env o with
  | (.ok r, t) => (.ok r, t)
  | (.error e, t) => (classify env e, t)

/-- Trace contains no write-like operation: no hashing, no insert, no
verification-code update, no email send. -/
def noWriteOps (t : List Op) : Prop :=
  (∀ p, Op.hashPassword p ∉ t) ∧ (∀ v, Op.insert v ∉ t) ∧
  (∀ i c x, Op.updateVerification i c x ∉ t) ∧ (∀ r s, Op.sendEmail r s ∉ t)

/-- Trace contains no database operation at all. -/
def noDbOps (t : List Op) : Prop :=
  (∀ e, Op.findByEmail e ∉ t) ∧ (∀ v, Op.insert v ∉ t) ∧
  (∀ i c x, Op.updateVerification i c x ∉ t)

/-- Concrete environment with both Supabase variables set, production build. -/
def envOK : Env := ⟨some "https://example.supabase.co", some "anon-key", some "production"⟩

/-- Concrete environment with both Supabase variables set, development build. -/
def envDev : Env := ⟨some "https://example.supabase.co", some "anon-key", some "development"⟩

/-- Concrete environment with the Supabase URL unset. -/
def envNoUrl : Env := ⟨none, some "anon-key", some "production"⟩

/-- Concrete valid registration body (spec §8's concrete scenario). -/
def bodyA : RawBody :=
  ⟨some "a@b.com", some "Secret123!", some "A", none, none, some "buyer",
   none, none, none, none, some true⟩

/-- Concrete valid registration body for an agent. -/
def bodyAgent : RawBody :=
  ⟨some "g@b.com", some "Secret123!", some "G", none, none, some "agent",
   none, none, none, none, some true⟩

/-- Concrete body with the required email missing. -/
def bodyNoEmail : RawBody :=
  ⟨none, some "Secret123!", some "A", none, none, some "buyer",
   none, none, none, none, some true⟩

/-- Validated form of `bodyA`. -/
def vdA : ValidatedData :=
  ⟨"a@b.com", "Secret123!", "A", none, none, "buyer", none, none, none, none, true⟩

/-- Validated form of `bodyAgent`. -/
def vdAgent : ValidatedData :=
  ⟨"g@b.com", "Secret123!", "G", none, none, "agent", none, none, none, none, true⟩

/-- Oracle for a clean successful registration of `bodyA`. -/
def oracleA : Oracle :=
  ⟨.ok bodyA, .ok none, .ok 1, none, true, "saltsaltsaltsaltsaltsa", 1/2, 1000, 2000⟩

/-- Oracle for a clean successful registration of `bodyAgent`. -/
def oracleAgent : Oracle :=
  ⟨.ok bodyAgent, .ok none, .ok 2, none, true, "saltsaltsaltsaltsaltsa", 0, 1000, 2000⟩

/-- Pre-existing user row with email `a@b.com`. -/
def userU : UserRecord :=
  ⟨⟨"a@b.com", "$2a$12$previous", "A", none, none, "buyer", none, none, none, none,
    true, 0, true, false⟩, 7⟩

/-- Oracle in which the email lookup finds `userU`. -/
def oracleExisting : Oracle :=
  ⟨.ok bodyA, .ok (some userU), .ok 1, none, true, "salt", 0, 0, 0⟩

/-- Oracle delivering a body that fails schema validation. -/
def oracleBadBody : Oracle :=
  ⟨.ok bodyNoEmail, .ok none, .ok 1, none, true, "salt", 0, 0, 0⟩

/-- Oracle on which the verification-code update reports an error and the
email helper reports failure. -/
def oracleDegraded : Oracle :=
  ⟨.ok bodyA, .ok none, .ok 3, some (.errObj none (some "update failed") []),
   false, "salt", 1/2, 1000, 2000⟩

/-- Oracle whose database lookup throws the JavaScript value `null`. -/
def oracleThrowNull : Oracle :=
  ⟨.ok bodyA, .error .nullv, .ok 1, none, true, "salt", 0, 0, 0⟩

/-- Oracle whose database lookup throws the JavaScript string "boom". -/
def oracleThrowStr : Oracle :=
  ⟨.ok bodyA, .error (.str "boom"), .ok 1, none, true, "salt", 0, 0, 0⟩

/-! Auxiliary lemmas about the embedded definitions. -/

theorem ratFloor_eq_intFloor (a : ℚ) : Rat.floor a = ⌊a⌋ :=
  (Rat.floor_def' a).trans Rat.floor_def.symm

theorem genCodeNat_lb {q : ℚ} (h0 : 0 ≤ q) : 100000 ≤ genCodeNat q := by
  unfold genCodeNat
  have h : (100000 : ℤ) ≤ Rat.floor (100000 + q * 900000) := by
    rw [ratFloor_eq_intFloor]
    apply Int.le_floor.mpr
    push_cast
    nlinarith
  omega

theorem genCodeNat_ub {q : ℚ} (h1 : q < 1) : genCodeNat q ≤ 999999 := by
  unfold genCodeNat
  have h : Rat.floor (100000 + q * 900000) < 1000000 := by
    rw [ratFloor_eq_intFloor]
    apply Int.floor_lt.mpr
    push_cast
    nlinarith
  omega

theorem decDigits_eq (fuel n : Nat) (h : n ≤ fuel) : decDigits fuel n = Nat.digits 10 n := by
  induction fuel generalizing n with
  | zero =>
    interval_cases n
    simp [decDigits]
  | succ f ih =>
    match n with
    | 0 => simp [decDigits]
    | m + 1 =>
      rw [decDigits, ih ((m + 1) / 10) (by omega),
        Nat.digits_def' (by norm_num : (1 : ℕ) < 10) (Nat.succ_pos m)]

theorem digitChar_isDigit : ∀ d, d < 10 → (Nat.digitChar d).isDigit := by decide

theorem digitChar_ne_zeroChar : ∀ d, d < 10 → d ≠ 0 → Nat.digitChar d ≠ '0' := by decide

theorem jsNatToString_no_leading_zero {n : Nat} (hn : n ≠ 0) :
    jsNatToString n ≠ "000000" := by
  intro h
  unfold jsNatToString at h
  rw [if_neg hn] at h
  have hd := congrArg String.data h
  simp only [String.data] at hd
  rw [decDigits_eq n n le_rfl] at hd
  have hne : Nat.digits 10 n ≠ [] := Nat.digits_ne_nil_iff_ne_zero.mpr hn
  have hmem : (Nat.digits 10 n).getLast hne ∈ Nat.digits 10 n := List.getLast_mem hne
  have hmem2 : Nat.digitChar ((Nat.digits 10 n).getLast hne) ∈
      ((Nat.digits 10 n).map Nat.digitChar).reverse := by
    rw [List.mem_reverse]
    exact List.mem_map_of_mem Nat.digitChar hmem
  rw [hd] at hmem2
  have heq : Nat.digitChar ((Nat.digits 10 n).getLast hne) = '0' := by
    simpa using hmem2
  have hlt : (Nat.digits 10 n).getLast hne < 10 :=
    Nat.digits_lt_base (by norm_num) hmem
  have hlast : (Nat.digits 10 n).getLast hne ≠ 0 := by
    have := Nat.getLast_digit_ne_zero 10 hn
    simpa using this
  exact digitChar_ne_zeroChar _ hlt hlast heq

theorem jsNatToString_len6 {n : Nat} (h1 : 100000 ≤ n) (h2 : n ≤ 999999) :
    (jsNatToString n).length = 6 := by
  have hn : n ≠ 0 := by omega
  unfold jsNatToString
  rw [if_neg hn]
  have hmk : (String.mk (((decDigits n n).map Nat.digitChar).reverse)).length
      = ((decDigits n n).map Nat.digitChar).reverse.length := rfl
  rw [hmk, List.length_reverse, List.length_map, decDigits_eq n n le_rfl,
    Nat.digits_len 10 n (by norm_num) hn]
  have hlog : Nat.log 10 n = 5 :=
    Nat.log_eq_of_pow_le_of_lt_pow (by norm_num; omega) (by norm_num; omega)
  omega

theorem jsNatToString_all_digits (n : Nat) : ∀ c ∈ (jsNatToString n).data, c.isDigit := by
  intro c hc
  unfold jsNatToString at hc
  by_cases hn : n = 0
  · rw [if_pos hn] at hc
    simp only [String.data] at hc
    simp at hc
    rw [hc]
    decide
  · rw [if_neg hn] at hc
    simp only [String.data] at hc
    rw [List.mem_reverse] at hc
    rcases List.mem_map.mp hc with ⟨d, hd, rfl⟩
    rw [decDigits_eq n n le_rfl] at hd
    exact digitChar_isDigit d (Nat.digits_lt_base (by norm_num) hd)

theorem genCode_attains {m : Nat} (h1 : 100000 ≤ m) (h2 : m ≤ 999999) :
    ∃ q : ℚ, 0 ≤ q ∧ q < 1 ∧ genCode q = jsNatToString m := by
  refine ⟨((m : ℚ) - 100000) / 900000, ?_, ?_, ?_⟩
  · apply div_nonneg _ (by norm_num)
    have : (100000 : ℚ) ≤ (m : ℚ) := by exact_mod_cast h1
    linarith
  · rw [div_lt_one (by norm_num)]
    have : (m : ℚ) ≤ 999999 := by exact_mod_cast h2
    linarith
  · unfold genCode genCodeNat
    have harg : (100000 : ℚ) + ((m : ℚ) - 100000) / 900000 * 900000 = (m : ℚ) := by
      field_simp
    rw [harg, ratFloor_eq_intFloor, Int.floor_natCast, Int.toNat_ofNat]

theorem hexOfChars_length (l : List Char) : (hexOfChars l).length = 2 * l.length := by
  induction l with
  | nil => simp [hexOfChars]
  | cons c t ih =>
    simp [hexOfChars, hexChunk, ih]
    omega

theorem bcryptHash_length (salt pw : String) :
    (bcryptHash salt pw).length = 7 + salt.length + 2 * pw.length := by
  unfold bcryptHash
  rw [String.length_append, String.length_append]
  have h7 : ("$2a$12$" : String).length = 7 := rfl
  have h2 : (String.mk (hexOfChars pw.toList)).length = (hexOfChars pw.toList).length := rfl
  have hl : pw.toList.length = pw.length := rfl
  rw [h7, h2, hexOfChars_length, hl]

theorem bcryptHash_ne (salt pw : String) : bcryptHash salt pw ≠ pw := by
  intro h
  have hlen := congrArg String.length h
  rw [bcryptHash_length] at hlen
  omega

theorem schemaParse_error {b : RawBody} {l : List String}
    (h : schemaParse b = .error l) : l = missingIssues b ∧ l ≠ [] := by
  unfold schemaParse at h
  split at h
  · exact absurd h (by simp)
  · next hcond =>
    injection h with h1
    subst h1
    refine ⟨rfl, ?_⟩
    rcases b with ⟨be, bp, bf, bl, bph, br, bs, bb, ba, bpi, bt⟩
    rcases be with _ | e <;> rcases bp with _ | p <;> rcases bf with _ | f <;>
      rcases br with _ | r <;> rcases bt with _ | t <;>
      simp_all [missingIssues]

/-! Claim theorems. -/

/-- C1: for every valid registration payload whose email has no existing
user record, the handler returns 201 with success true; the inserted row's
password hash is bcrypt's output on the plaintext (hence differs from the
plaintext), and the returned user object is the sanitized record, whose
type carries no password-hash field and whose value ignores it. -/
theorem c1_register_fresh_email (env : Env) (o : Oracle) (body : RawBody)
    (vd : ValidatedData) (uid : Nat) (v : InsertValues)
    (henv1 : envFalsy env.supabaseUrl = false)
    (henv2 : envFalsy env.supabaseAnonKey = false)
    (hbody : o.bodyResult = .ok body)
    (hvd : schemaParse body = .ok vd)
    (hfind : o.findResult = .ok none)
    (hcreate : o.createResult = .ok uid)
    (hv : v = mkInsertValues vd (bcryptHash o.salt vd.password) o.nowInsert) :
    POST env o =
      (.ok { status := 201, success := true, message := some successMsg,
             user := some (sanitize ⟨v, uid⟩), details := none, errorField := none },
       [.parseBody, .findByEmail vd.email, .hashPassword vd.password, .insert v,
        .updateVerification uid (genCode o.rand) (o.now + 15 * 60 * 1000),
        .sendEmail vd.email "Verify Your k-H Account"]) ∧
    v.password_hash = bcryptHash o.salt vd.password ∧
    v.password_hash ≠ vd.password ∧
    (∀ (u : InsertValues) (h₁ h₂ : String),
      sanitize ⟨{ u with password_hash := h₁ }, uid⟩ =
        sanitize ⟨{ u with password_hash := h₂ }, uid⟩) := by
  subst hv
  refine ⟨?_, rfl, bcryptHash_ne _ _, fun u h₁ h₂ => rfl⟩
  simp [POST, tryBody, hbody, hvd, hfind, hcreate, henv1, henv2]

theorem c1_register_fresh_email_witness :
    schemaParse bodyA = .ok vdA ∧
    ∃ r t, POST envOK oracleA = (.ok r, t) ∧ r.status = 201 ∧ r.success = true := by
  have h := c1_register_fresh_email envOK oracleA bodyA vdA 1
    (mkInsertValues vdA (bcryptHash oracleA.salt vdA.password) oracleA.nowInsert)
    rfl rfl rfl rfl rfl rfl rfl
  exact ⟨rfl, _, _, h.1, rfl, rfl⟩

/-- C2: when the pre-insert lookup finds an existing user for the email,
the handler returns 400 with the "already exists" message and the trace
shows no hashing, no insert, no verification-code update and no email. -/
theorem c2_duplicate_email (env : Env) (o : Oracle) (body : RawBody)
    (vd : ValidatedData) (u : UserRecord)
    (henv1 : envFalsy env.supabaseUrl = false)
    (henv2 : envFalsy env.supabaseAnonKey = false)
    (hbody : o.bodyResult = .ok body)
    (hvd : schemaParse body = .ok vd)
    (hfind : o.findResult = .ok (some u)) :
    POST env o = (.ok conflictResp, [.parseBody, .findByEmail vd.email]) ∧
    conflictResp.status = 400 ∧ conflictResp.success = false ∧
    conflictResp.message = some "User with this email already exists" ∧
    noWriteOps [.parseBody, .findByEmail vd.email] := by
  refine ⟨?_, rfl, rfl, rfl, ?_⟩
  · simp [POST, tryBody, hbody, hvd, hfind, henv1, henv2]
  · refine ⟨fun p => ?_, fun v => ?_, fun i c x => ?_, fun r s => ?_⟩ <;> simp

theorem c2_duplicate_email_witness :
    oracleExisting.findResult = .ok (some userU) ∧
    POST envOK oracleExisting = (.ok conflictResp, [.parseBody, .findByEmail vdA.email]) := by
  have h := c2_duplicate_email envOK oracleExisting bodyA vdA userU rfl rfl rfl rfl rfl
  exact ⟨rfl, h.1⟩

/-- C3: a payload failing schema validation yields 400 with success false
and a non-empty list of field-level issues, and the trace shows no database
operation of any kind (the only step taken is reading the body). -/
theorem c3_validation_failure (env : Env) (o : Oracle) (body : RawBody)
    (issues : List String)
    (henv1 : envFalsy env.supabaseUrl = false)
    (henv2 : envFalsy env.supabaseAnonKey = false)
    (hbody : o.bodyResult = .ok body)
    (hvd : schemaParse body = .error issues) :
    POST env o =
      (.ok { status := 400, success := false, message := some "Invalid input data",
             user := none, details := some issues, errorField := none },
       [.parseBody]) ∧
    issues ≠ [] ∧
    noDbOps [.parseBody] := by
  refine ⟨?_, (schemaParse_error hvd).2, ?_⟩
  · simp [POST, tryBody, hbody, hvd, henv1, henv2, classify]
  · refine ⟨fun e => ?_, fun v => ?_, fun i c x => ?_⟩ <;> simp

theorem c3_validation_failure_witness :
    schemaParse bodyNoEmail = .error ["email: Required"] ∧
    ∃ r, POST envOK oracleBadBody = (.ok r, [.parseBody]) ∧
      r.status = 400 ∧ r.details = some ["email: Required"] := by
  have h := c3_validation_failure envOK oracleBadBody bodyNoEmail
    ["email: Required"] rfl rfl rfl (by rfl)
  exact ⟨by rfl, _, h.1, rfl, rfl⟩

/-- C4: on every successful registration the inserted row has
verified_status false exactly when the validated role is "agent" (true for
every other role), and email_verified false for every role. -/
theorem c4_verified_status (env : Env) (o : Oracle) (body : RawBody)
    (vd : ValidatedData) (uid : Nat) (v : InsertValues)
    (henv1 : envFalsy env.supabaseUrl = false)
    (henv2 : envFalsy env.supabaseAnonKey = false)
    (hbody : o.bodyResult = .ok body)
    (hvd : schemaParse body = .ok vd)
    (hfind : o.findResult = .ok none)
    (hcreate : o.createResult = .ok uid)
    (hv : v = mkInsertValues vd (bcryptHash o.salt vd.password) o.nowInsert) :
    Op.insert v ∈ (POST env o).2 ∧
    (v.verified_status = false ↔ vd.role = "agent") ∧
    v.email_verified = false := by
  subst hv
  refine ⟨?_, ?_, rfl⟩
  · simp [POST, tryBody, hbody, hvd, hfind, hcreate, henv1, henv2]
  · unfold mkInsertValues
    by_cases hr : vd.role = "agent" <;> simp [hr]

theorem c4_verified_status_witness :
    vdAgent.role = "agent" ∧
    (mkInsertValues vdAgent (bcryptHash oracleAgent.salt vdAgent.password)
        oracleAgent.nowInsert).verified_status = false ∧
    (mkInsertValues vdAgent (bcryptHash oracleAgent.salt vdAgent.password)
        oracleAgent.nowInsert).email_verified = false := by
  have h := c4_verified_status envOK oracleAgent bodyAgent vdAgent 2
    (mkInsertValues vdAgent (bcryptHash oracleAgent.salt vdAgent.password)
      oracleAgent.nowInsert)
    rfl rfl rfl rfl rfl rfl rfl
  exact ⟨rfl, h.2.1.mpr rfl, h.2.2⟩

/-- C5 counterexample: the claim says every 6-digit string, including those
with leading zeros, is a possible verification code.  The code computes
`Math.floor(100000 + Math.random() * 900000)`, which is at least 100000 for
every random value in [0, 1), so "000000" is never produced. -/
theorem c5_counterexample :
    ¬ ∃ q : ℚ, 0 ≤ q ∧ q < 1 ∧ genCode q = "000000" := by
  rintro ⟨q, h0, h1, hc⟩
  unfold genCode at hc
  have hlb := genCodeNat_lb h0
  exact jsNatToString_no_leading_zero (by omega) hc

/-- C5 (amended): on every successful registration the generated
verification code is the decimal string of
`floor(100000 + rand * 900000)`, a 6-character numeric string whose value
ranges over exactly 100000–999999 (every value in that range is attainable,
leading-zero strings are not), and the stored expiry is exactly 15 minutes
(900000 ms) after the issuance clock read. -/
theorem c5_verification_code (env : Env) (o : Oracle) (body : RawBody)
    (vd : ValidatedData) (uid : Nat)
    (henv1 : envFalsy env.supabaseUrl = false)
    (henv2 : envFalsy env.supabaseAnonKey = false)
    (hbody : o.bodyResult = .ok body)
    (hvd : schemaParse body = .ok vd)
    (hfind : o.findResult = .ok none)
    (hcreate : o.createResult = .ok uid)
    (h0 : 0 ≤ o.rand) (h1 : o.rand < 1) :
    Op.updateVerification uid (genCode o.rand) (o.now + 15 * 60 * 1000) ∈ (POST env o).2 ∧
    genCode o.rand = jsNatToString (genCodeNat o.rand) ∧
    100000 ≤ genCodeNat o.rand ∧ genCodeNat o.rand ≤ 999999 ∧
    (genCode o.rand).length = 6 ∧
    (∀ c ∈ (genCode o.rand).data, c.isDigit) ∧
    (∀ m : Nat, 100000 ≤ m → m ≤ 999999 →
      ∃ q : ℚ, 0 ≤ q ∧ q < 1 ∧ genCode q = jsNatToString m) := by
  refine ⟨?_, rfl, genCodeNat_lb h0, genCodeNat_ub h1, ?_, ?_,
    fun m hm1 hm2 => genCode_attains hm1 hm2⟩
  · simp [POST, tryBody, hbody, hvd, hfind, hcreate, henv1, henv2]
  · unfold genCode
    exact jsNatToString_len6 (genCodeNat_lb h0) (genCodeNat_ub h1)
  · unfold genCode
    exact jsNatToString_all_digits _

theorem c5_verification_code_witness :
    (0 : ℚ) ≤ oracleA.rand ∧ oracleA.rand < 1 ∧
    (genCode oracleA.rand).length = 6 := by
  have h0 : (0 : ℚ) ≤ oracleA.rand := by norm_num [oracleA]
  have h1 : oracleA.rand < 1 := by norm_num [oracleA]
  have h := c5_verification_code envOK oracleA bodyA vdA 1 rfl rfl rfl rfl rfl rfl h0 h1
  exact ⟨h0, h1, h.2.2.2.2.1⟩

/-- C6: whenever the user insert succeeds, the handler returns 201 with
success true, even when the verification-code update reports an error and
the email helper reports failure: neither value influences the result. -/
theorem c6_degraded_success (env : Env) (o : Oracle) (body : RawBody)
    (vd : ValidatedData) (uid : Nat) (uerr : JsVal)
    (henv1 : envFalsy env.supabaseUrl = false)
    (henv2 : envFalsy env.supabaseAnonKey = false)
    (hbody : o.bodyResult = .ok body)
    (hvd : schemaParse body = .ok vd)
    (hfind : o.findResult = .ok none)
    (hcreate : o.createResult = .ok uid)
    (hupd : o.updateError = some uerr)
    (hmail : o.emailSuccess = false) :
    ∃ r : Response, (POST env o).1 = .ok r ∧ r.status = 201 ∧ r.success = true := by
  have hmain : (POST env o).1 =
      .ok { status := 201, success := true, message := some successMsg,
            user := some (sanitize
              ⟨mkInsertValues vd (bcryptHash o.salt vd.password) o.nowInsert, uid⟩),
            details := none, errorField := none } := by
    simp [POST, tryBody, hbody, hvd, hfind, hcreate, henv1, henv2]
  exact ⟨_, hmain, rfl, rfl⟩

theorem c6_degraded_success_witness :
    oracleDegraded.updateError = some (.errObj none (some "update failed") []) ∧
    oracleDegraded.emailSuccess = false ∧
    ∃ r : Response, (POST envOK oracleDegraded).1 = .ok r ∧
      r.status = 201 ∧ r.success = true := by
  have h := c6_degraded_success envOK oracleDegraded bodyA vdA 3
    (.errObj none (some "update failed") []) rfl rfl rfl rfl rfl rfl rfl rfl
  exact ⟨rfl, rfl, h⟩

/-- C7: the catch-block classification: a ZodError gives 400 with the field
issues; a message containing "connect" or "ENOTFOUND" gives the 500
connection response; otherwise "duplicate key" or "unique constraint" gives
400 "Email already exists"; otherwise "relation" together with "does not
exist" gives the 500 missing-tables response; anything else gives the
generic 500 whose underlying message is exposed only when NODE_ENV is
"development". -/
theorem c7_error_classification (env : Env) (name msg : Option String)
    (issues : List String) :
    (name = some "ZodError" →
      classify env (.errObj name msg issues) =
        .ok { status := 400, success := false, message := some "Invalid input data",
              user := none, details := some issues, errorField := none }) ∧
    (name ≠ some "ZodError" →
      (optIncludes msg "connect" || optIncludes msg "ENOTFOUND") = true →
      classify env (.errObj name msg issues) =
        .ok (jsonResp 500 false
          (some "Database connection failed. Please check your DATABASE_URL."))) ∧
    (name ≠ some "ZodError" →
      (optIncludes msg "connect" || optIncludes msg "ENOTFOUND") = false →
      (optIncludes msg "duplicate key" || optIncludes msg "unique constraint") = true →
      classify env (.errObj name msg issues) =
        .ok (jsonResp 400 false (some "Email already exists"))) ∧
    (name ≠ some "ZodError" →
      (optIncludes msg "connect" || optIncludes msg "ENOTFOUND") = false →
      (optIncludes msg "duplicate key" || optIncludes msg "unique constraint") = false →
      (optIncludes msg "relation" && optIncludes msg "does not exist") = true →
      classify env (.errObj name msg issues) =
        .ok (jsonResp 500 false
          (some "Database tables not found. Please run the SQL schema in Supabase first."))) ∧
    (name ≠ some "ZodError" →
      (optIncludes msg "connect" || optIncludes msg "ENOTFOUND") = false →
      (optIncludes msg "duplicate key" || optIncludes msg "unique constraint") = false →
      (optIncludes msg "relation" && optIncludes msg "does not exist") = false →
      classify env (.errObj name msg issues) = .ok (genericResp env msg) ∧
      (genericResp env msg).status = 500 ∧
      (genericResp env msg).errorField =
        (if env.nodeEnv = some "development" then msg else none)) := by
  refine ⟨fun h1 => ?_, fun h1 h2 => ?_, fun h1 h2 h3 => ?_,
    fun h1 h2 h3 h4 => ?_, fun h1 h2 h3 h4 => ⟨?_, rfl, rfl⟩⟩
  · simp [classify, h1]
  · simp [classify, h1, h2]
  · simp [classify, h1, h2, h3]
  · simp [classify, h1, h2, h3, h4]
  · simp [classify, h1, h2, h3, h4]

theorem c7_error_classification_witness :
    classify envDev (.errObj (some "ZodError") none ["issue"]) =
      .ok { status := 400, success := false, message := some "Invalid input data",
            user := none, details := some ["issue"], errorField := none } ∧
    classify envDev (.errObj none (some "could not connect") []) =
      .ok (jsonResp 500 false
        (some "Database connection failed. Please check your DATABASE_URL.")) ∧
    classify envDev (.errObj none (some "duplicate key value") []) =
      .ok (jsonResp 400 false (some "Email already exists")) ∧
    classify envDev (.errObj none (some "relation users does not exist") []) =
      .ok (jsonResp 500 false
        (some "Database tables not found. Please run the SQL schema in Supabase first.")) ∧
    classify envDev (.errObj none (some "boom") []) =
      .ok (genericResp envDev (some "boom")) := by
  refine ⟨(c7_error_classification envDev (some "ZodError") none ["issue"]).1 rfl,
    (c7_error_classification envDev none (some "could not connect") []).2.1
      (by decide) (by decide),
    (c7_error_classification envDev none (some "duplicate key value") []).2.2.1
      (by decide) (by decide) (by decide),
    (c7_error_classification envDev none (some "relation users does not exist") []).2.2.2.1
      (by decide) (by decide) (by decide) (by decide),
    ((c7_error_classification envDev none (some "boom") []).2.2.2.2
      (by decide) (by decide) (by decide) (by decide)).1⟩

/-- C8: when a required Supabase configuration variable is unset the
handler returns a 500 configuration response with an empty trace: the body
was never parsed and no database operation was performed. -/
theorem c8_config_missing (env : Env) (o : Oracle)
    (h : env.supabaseUrl = none ∨ env.supabaseAnonKey = none) :
    ∃ r, POST env o = (.ok r, []) ∧ r.status = 500 ∧ r.success = false ∧
      (env.supabaseUrl = none → r.message = some "Supabase configuration missing") ∧
      (r.message = some "Supabase configuration missing" ∨
        r.message = some "Supabase anon key missing") ∧
      noDbOps [] ∧ Op.parseBody ∉ ([] : List Op) := by
  by_cases hu : envFalsy env.supabaseUrl = true
  · refine ⟨jsonResp 500 false (some "Supabase configuration missing"), ?_, rfl, rfl,
      fun _ => rfl, Or.inl rfl,
      ⟨fun e => by simp, fun v => by simp, fun i c x => by simp⟩, by simp⟩
    simp [POST, tryBody, hu]
  · have hu' : envFalsy env.supabaseUrl = false := by
      simpa using hu
    have hk : env.supabaseAnonKey = none := by
      rcases h with h | h
      · exact absurd (by rw [h]; rfl) hu
      · exact h
    have ht : tryBody env o = (.ok (jsonResp 500 false (some "Supabase anon key missing")), []) := by
      unfold tryBody
      rw [hu', hk]
      simp [envFalsy]
    refine ⟨jsonResp 500 false (some "Supabase anon key missing"), ?_, rfl, rfl,
      ?_, Or.inr rfl,
      ⟨fun e => by simp, fun v => by simp, fun i c x => by simp⟩, by simp⟩
    · simp [POST, ht]
    · intro hnone
      exact absurd (by rw [hnone]; rfl) hu

theorem c8_config_missing_witness :
    envNoUrl.supabaseUrl = none ∧
    ∃ r, POST envNoUrl oracleA = (.ok r, []) ∧ r.status = 500 := by
  obtain ⟨r, h1, h2, _⟩ := c8_config_missing envNoUrl oracleA (Or.inl rfl)
  exact ⟨rfl, r, h1, h2⟩

/-- C9 counterexample: the claim says every thrown value, including null,
is caught and mapped to a structured response.  When the lookup throws the
JavaScript value `null`, the catch block's `error.name` access itself
throws a TypeError which nothing catches, so an exception escapes the
handler instead of a response being returned. -/
theorem c9_counterexample :
    (POST envOK oracleThrowNull).1 =
      .error (.errObj (some "TypeError")
        (some "Cannot read properties of null (reading 'name')") []) := by
  rfl

theorem classify_success_false (env : Env) (e : JsVal)
    (hn1 : e ≠ JsVal.nullv) (hn2 : e ≠ JsVal.undef) :
    ∃ r, classify env e = .ok r ∧ r.success = false := by
  cases e with
  | nullv => exact absurd rfl hn1
  | undef => exact absurd rfl hn2
  | str s => exact ⟨_, rfl, rfl⟩
  | prim => exact ⟨_, rfl, rfl⟩
  | errObj name msg issues =>
    simp only [classify]
    split_ifs <;> exact ⟨_, rfl, rfl⟩

/-- C9 (amended): every thrown value other than `null` and `undefined`
(strings and other primitives included) is caught at the handler boundary
and mapped to exactly one structured JSON response with success false; a
thrown `null` or `undefined`, however, makes the catch block's `error.name`
access throw a TypeError that escapes the handler. -/
theorem c9_caught_response (env : Env) (o : Oracle) (e : JsVal) (t : List Op)
    (h : tryBody env o = (.error e, t))
    (hn1 : e ≠ JsVal.nullv) (hn2 : e ≠ JsVal.undef) :
    ∃ r, POST env o = (.ok r, t) ∧ r.success = false := by
  obtain ⟨r, hr, hs⟩ := classify_success_false env e hn1 hn2
  refine ⟨r, ?_, hs⟩
  unfold POST
  rw [h]
  show (classify env e, t) = (Except.ok r, t)
  rw [hr]

theorem c9_caught_response_witness :
    JsVal.str "boom" ≠ JsVal.nullv ∧
    ∃ r, POST envOK oracleThrowStr = (.ok r, [.parseBody, .findByEmail "a@b.com"]) ∧
      r.success = false := by
  have h := c9_caught_response envOK oracleThrowStr (.str "boom")
    [.parseBody, .findByEmail "a@b.com"] (by rfl) (by decide) (by decide)
  exact ⟨by decide, h⟩

/-- C10: the classification is first-match: an error that is not a ZodError
whose message contains a connectivity substring and also a
uniqueness-constraint substring gets the 500 connection response, not the
400 email-exists response. -/
theorem c10_connect_wins (env : Env) (name : Option String) (m : String)
    (issues : List String)
    (hname : name ≠ some "ZodError")
    (hconn : strIncludes m "connect" = true ∨ strIncludes m "ENOTFOUND" = true)
    (hdup : strIncludes m "duplicate key" = true ∨
      strIncludes m "unique constraint" = true) :
    classify env (.errObj name (some m) issues) =
      .ok (jsonResp 500 false
        (some "Database connection failed. Please check your DATABASE_URL.")) ∧
    classify env (.errObj name (some m) issues) ≠
      .ok (jsonResp 400 false (some "Email already exists")) := by
  have hc : (optIncludes (some m) "connect" || optIncludes (some m) "ENOTFOUND") = true := by
    rcases hconn with h | h <;> simp [optIncludes, h]
  have heq : classify env (.errObj name (some m) issues) =
      .ok (jsonResp 500 false
        (some "Database connection failed. Please check your DATABASE_URL.")) := by
    simp [classify, hname, hc]
  refine ⟨heq, ?_⟩
  rw [heq]
  intro hcontra
  simp [jsonResp] at hcontra

theorem c10_connect_wins_witness :
    strIncludes "connect: duplicate key" "connect" = true ∧
    strIncludes "connect: duplicate key" "duplicate key" = true ∧
    classify envOK (.errObj none (some "connect: duplicate key") []) =
      .ok (jsonResp 500 false
        (some "Database connection failed. Please check your DATABASE_URL.")) := by
  have h := c10_connect_wins envOK none "connect: duplicate key" [] (by decide)
    (Or.inl (by decide)) (Or.inl (by decide))
  exact ⟨by decide, by decide, h.1⟩

end KHostel
